import Mathlib

/-!
Verification development for the LLM-based synthetic data generator
(`giskard/llm/generators/base.py`).

The Python source is shallowly embedded below:
* JSON values are the inductive `Json`; the standard library primitive
  `json.loads` is modelled by the executable parser `json_loads`
  (restricted to the JSON subset exercised here: numbers are integers,
  string escapes are the common ones, no `\u` escapes).
* Python exceptions become the inductive `PyExc`; fallible code returns
  `Except PyExc _`.
* The LLM client is a pure stub `CompletionCall → ChatMessage`; the calls a
  `generate_dataset` invocation issues are returned alongside its outcome so
  that call-count and call-parameter properties are statable.
-/

/-- JSON values, as produced by Python's `json.loads` (numbers restricted to
integers; an object keeps its members in source order, later duplicates
shadowing earlier ones on subscript, as in a Python dict built by `loads`). -/
inductive Json where
  | null : Json
  | bool (b : Bool) : Json
  | num (n : Int) : Json
  | str (s : String) : Json
  | arr (elems : List Json) : Json
  | obj (members : List (String × Json)) : Json

/-- Python exceptions relevant to this module.  `LLMGenerationError` is the
repository's `giskard.llm.errors.LLMGenerationError`; it records the message
and the `from err` cause. -/
inductive PyExc where
  | JSONDecodeError : PyExc
  | KeyError (key : String) : PyExc
  | TypeError (msg : String) : PyExc
  | ValueError (msg : String) : PyExc
  | IndexError : PyExc
  | AttributeError (attr : String) : PyExc
  | LLMGenerationError (message : String) (cause : PyExc) : PyExc
deriving DecidableEq

/-- JSON whitespace test. -/
def isJsonWs (c : Char) : Bool :=
  c = ' ' || c = '\n' || c = '\t' || c = '\r'

/-- Skip leading JSON whitespace. -/
def skipWs : List Char → List Char
  | [] => []
  | c :: cs => if isJsonWs c then skipWs cs else c :: cs

/-- Decode one string-escape character (the common subset; `\u` escapes are
outside the modelled fragment). -/
def jsonEscChar (e : Char) : Option Char :=
  if e = 'n' then some '\n'
  else if e = 't' then some '\t'
  else if e = 'r' then some '\r'
  else if e = '"' then some '"'
  else if e = '/' then some '/'
  else if e = '\\' then some '\\'
  else none

/-- Parse the body of a JSON string (the opening quote already consumed),
returning the decoded string and the remaining input. -/
def parseJStr : List Char → Option (String × List Char)
  | [] => none
  | '"' :: rest => some ("", rest)
  | '\\' :: e :: rest =>
    match jsonEscChar e with
    | none => none
    | some c =>
      match parseJStr rest with
      | none => none
      | some (s, r) => some (c.toString ++ s, r)
  | c :: rest =>
    if c = '\\' then none
    else
      match parseJStr rest with
      | none => none
      | some (s, r) => some (c.toString ++ s, r)

/-- Parse a nonempty run of decimal digits into a natural number. -/
def parseDigits : List Char → Option (Nat × List Char)
  | [] => none
  | c :: cs =>
    if c.isDigit then
      match parseDigits cs with
      | some (n, r) => some ((c.toNat - '0'.toNat) * (10 ^ (cs.length - r.length)) + n, r)
      | none => some (c.toNat - '0'.toNat, cs)
    else none

mutual

/-- Parse one JSON value (fuel-indexed recursive descent). -/
def parseVal : Nat → List Char → Option (Json × List Char)
  | 0, _ => none
  | fuel + 1, cs =>
    match skipWs cs with
    | 'n' :: 'u' :: 'l' :: 'l' :: rest => some (.null, rest)
    | 't' :: 'r' :: 'u' :: 'e' :: rest => some (.bool true, rest)
    | 'f' :: 'a' :: 'l' :: 's' :: 'e' :: rest => some (.bool false, rest)
    | '"' :: rest =>
      match parseJStr rest with
      | some (s, r) => some (.str s, r)
      | none => none
    | '[' :: rest =>
      match parseArrElems fuel rest with
      | some (vs, r) => some (.arr vs, r)
      | none => none
    | '\x7b' :: rest =>
      match parseObjMembers fuel rest with
      | some (ms, r) => some (.obj ms, r)
      | none => none
    | '-' :: rest =>
      match parseDigits rest with
      | some (n, r) => some (.num (-(n : Int)), r)
      | none => none
    | c :: rest =>
      if c.isDigit then
        match parseDigits (c :: rest) with
        | some (n, r) => some (.num (n : Int), r)
        | none => none
      else none
    | [] => none

/-- Parse the elements of a JSON array (the `[` already consumed). -/
def parseArrElems : Nat → List Char → Option (List Json × List Char)
  | 0, _ => none
  | fuel + 1, cs =>
    match skipWs cs with
    | ']' :: rest => some ([], rest)
    | cs' =>
      match parseVal fuel cs' with
      | none => none
      | some (v, r) =>
        match skipWs r with
        | ',' :: r2 =>
          match parseArrElems fuel r2 with
          | some (vs, r3) => some (v :: vs, r3)
          | none => none
        | ']' :: r2 => some ([v], r2)
        | _ => none

/-- Parse the members of a JSON object (the `\x7b` already consumed). -/
def parseObjMembers : Nat → List Char → Option (List (String × Json) × List Char)
  | 0, _ => none
  | fuel + 1, cs =>
    match skipWs cs with
    | '\x7d' :: rest => some ([], rest)
    | '"' :: rest =>
      match parseJStr rest with
      | none => none
      | some (k, r) =>
        match skipWs r with
        | ':' :: r2 =>
          match parseVal fuel r2 with
          | none => none
          | some (v, r3) =>
            match skipWs r3 with
            | ',' :: r4 =>
              match parseObjMembers fuel r4 with
              | some (ms, r5) => some ((k, v) :: ms, r5)
              | none => none
            | '\x7d' :: r4 => some ([(k, v)], r4)
            | _ => none
        | _ => none
    | _ => none

end

/-- Model of Python's `json.loads`: parse the whole input as one JSON value
(surrounding whitespace allowed); `none` models `json.JSONDecodeError`. -/
def json_loads (s : String) : Option Json :=
  match parseVal (2 * s.length + 2) s.data with
  | some (v, rest) => if (skipWs rest).isEmpty then some v else none
  | none => none

/-- Last-occurrence lookup in an association list: models subscripting a
Python dict built by `json.loads`, where a duplicated key keeps its last
value. -/
def lookupLast (kvs : List (String × Json)) (k : String) : Option Json :=
  match kvs with
  | [] => none
  | (k', v) :: rest =>
    match lookupLast rest k with
    | some r => some r
    | none => if k' = k then some v else none

/-- Python's `data[key]` for a string key: dict lookup (raising `KeyError`
when absent); every non-dict value raises `TypeError`. -/
def subscript (d : Json) (key : String) : Except PyExc Json :=
  match d with
  | .obj kvs =>
    match lookupLast kvs key with
    | some v => .ok v
    | none => .error (.KeyError key)
  | .arr _ => .error (.TypeError "list indices must be integers or slices")
  | .str _ => .error (.TypeError "string indices must be integers")
  | _ => .error (.TypeError "object is not subscriptable")

/-- A chat message: `giskard.llm.client.base.ChatMessage`. -/
structure ChatMessage where
  role : String
  content : String
deriving DecidableEq

/-- The class attribute `_BaseLLMGenerator._output_key`. -/
def default_output_key : String := "inputs"

/-- `_BaseLLMGenerator._parse_output`: `json.loads` the raw content and, when
the configured output key is truthy (a nonempty string), subscript by it.
`JSONDecodeError` and `KeyError` are caught and wrapped into
`LLMGenerationError("Could not parse generated data") from err`; any other
exception propagates. -/
def _parse_output (output_key : String) (raw_output : ChatMessage) : Except PyExc Json :=
  let body : Except PyExc Json :=
    match json_loads raw_output.content with
    | none => .error .JSONDecodeError
    | some data =>
      if output_key ≠ "" then subscript data output_key else .ok data
  match body with
  | .ok d => .ok d
  | .error .JSONDecodeError =>
    .error (.LLMGenerationError "Could not parse generated data" .JSONDecodeError)
  | .error (.KeyError k) =>
    .error (.LLMGenerationError "Could not parse generated data" (.KeyError k))
  | .error e => .error e

example : _parse_output "inputs" ⟨"assistant", "not json"⟩ =
    .error (.LLMGenerationError "Could not parse generated data" .JSONDecodeError) := by rfl

example : _parse_output "inputs" ⟨"assistant", "\x7b\"data\": []\x7d"⟩ =
    .error (.LLMGenerationError "Could not parse generated data" (.KeyError "inputs")) := by rfl

example : _parse_output "inputs" ⟨"assistant", "[]"⟩ =
    .error (.TypeError "list indices must be integers or slices") := by rfl

example : _parse_output "inputs" ⟨"assistant", "\x7b\"inputs\": [1, 2]\x7d"⟩ =
    .ok (.arr [.num 1, .num 2]) := by rfl

/-- Read-only metadata of the target model (`giskard` `BaseModel`): a name, a
description and the feature names, consumed only for prompt rendering and
result naming. -/
structure BaseModelMeta where
  name : String
  description : String
  feature_names : List String
deriving DecidableEq

/-- Python's `str(list_of_strings)`, e.g. `['income', 'age']`: needed when a
template accesses the feature-name sequence. -/
def pyStrList (xs : List String) : String :=
  "[" ++ String.intercalate ", " (xs.map (fun s => "'" ++ s ++ "'")) ++ "]"

/-- A value passed as a keyword argument to `str.format`. -/
inductive FmtVal where
  | str (s : String) : FmtVal
  | int (n : Int) : FmtVal
  | model (m : BaseModelMeta) : FmtVal
deriving DecidableEq

/-- Python attribute access on a format argument: the model metadata exposes
`name`, `description` and `feature_names`; anything else raises
`AttributeError`. -/
def getattrFmt : FmtVal → String → Except PyExc FmtVal
  | .model m, "name" => .ok (.str m.name)
  | .model m, "description" => .ok (.str m.description)
  | .model m, "feature_names" => .ok (.str (pyStrList m.feature_names))
  | _, a => .error (.AttributeError a)

/-- Rendering of a format argument to text, as `str()` would.  The rendering
of the bare metadata object models pydantic's `str()` and is exercised by no
claim. -/
def FmtVal.render : FmtVal → String
  | .str s => s
  | .int n => toString n
  | .model m =>
    "name=" ++ m.name ++ " description=" ++ m.description ++
      " feature_names=" ++ pyStrList m.feature_names

/-- One parsed piece of a format string: literal text or a replacement
field. -/
inductive Seg where
  | lit (s : String) : Seg
  | field (name : String) : Seg
deriving DecidableEq

/-- Split a format string into literal and field segments, following
`str.format`: `\x7b\x7b` and `\x7d\x7d` are brace escapes, a bare `\x7d` or an
unclosed `\x7b` raises `ValueError`.  Fuel-indexed; `pyFormat` supplies ample
fuel. -/
def tokenizeFmt : Nat → List Char → Except PyExc (List Seg)
  | 0, _ => .error (.ValueError "format: out of fuel")
  | _ + 1, [] => .ok []
  | fuel + 1, '\x7b' :: '\x7b' :: rest =>
    match tokenizeFmt fuel rest with
    | .ok segs => .ok (.lit "\x7b" :: segs)
    | .error e => .error e
  | fuel + 1, '\x7d' :: '\x7d' :: rest =>
    match tokenizeFmt fuel rest with
    | .ok segs => .ok (.lit "\x7d" :: segs)
    | .error e => .error e
  | _ + 1, '\x7d' :: _ =>
    .error (.ValueError "Single brace encountered in format string")
  | fuel + 1, '\x7b' :: rest =>
    match rest.span (fun c => c ≠ '\x7d') with
    | (fieldCs, r) =>
      match r with
      | '\x7d' :: r2 =>
        match tokenizeFmt fuel r2 with
        | .ok segs => .ok (.field (String.mk fieldCs) :: segs)
        | .error e => .error e
      | _ => .error (.ValueError "Single brace encountered in format string")
  | fuel + 1, c :: rest =>
    match tokenizeFmt fuel rest with
    | .ok segs => .ok (.lit c.toString :: segs)
    | .error e => .error e

/-- Walk an attribute path (`model.name` has path `["name"]`). -/
def applyAttrs : FmtVal → List String → Except PyExc FmtVal
  | v, [] => .ok v
  | v, a :: as =>
    match getattrFmt v a with
    | .ok v2 => applyAttrs v2 as
    | .error e => .error e

/-- Split at every dot, as `"model.name".split(".")` would. -/
def splitDot : List Char → List (List Char)
  | [] => [[]]
  | '.' :: rest => [] :: splitDot rest
  | c :: rest =>
    match splitDot rest with
    | [] => [[c]]
    | p :: ps => (c :: p) :: ps

/-- Resolve one replacement field against the keyword arguments: an empty or
numeric field is a positional reference (`IndexError`, since no positional
arguments are passed here), an unknown keyword raises `KeyError`. -/
def resolveField (args : List (String × FmtVal)) (field : String) : Except PyExc String :=
  match (splitDot field.data).map String.mk with
  | [] => .error .IndexError
  | key :: attrs =>
    if key = "" ∨ key.data.all Char.isDigit then .error .IndexError
    else
      match args.lookup key with
      | none => .error (.KeyError key)
      | some v =>
        match applyAttrs v attrs with
        | .ok v2 => .ok v2.render
        | .error e => .error e

/-- Substitute every field segment, left to right. -/
def renderSegs (args : List (String × FmtVal)) : List Seg → Except PyExc String
  | [] => .ok ""
  | .lit s :: rest =>
    match renderSegs args rest with
    | .ok out => .ok (s ++ out)
    | .error e => .error e
  | .field f :: rest =>
    match resolveField args f with
    | .error e => .error e
    | .ok v =>
      match renderSegs args rest with
      | .ok out => .ok (v ++ out)
      | .error e => .error e

/-- Model of Python's `template.format(**args)` for keyword arguments. -/
def pyFormat (template : String) (args : List (String × FmtVal)) : Except PyExc String :=
  match tokenizeFmt (template.length + 1) template.data with
  | .ok segs => renderSegs args segs
  | .error e => .error e

example : pyFormat "a \x7bx\x7d b" [("x", .int 3)] = .ok "a 3 b" := by rfl
example : pyFormat "\x7bm.name\x7d!" [("m", .model ⟨"M", "d", []⟩)] = .ok "M!" := by rfl
example : pyFormat "\x7bmissing\x7d" [("x", .int 3)] = .error (.KeyError "missing") := by rfl

/-- The module constant `DEFAULT_GENERATE_INPUTS_PROMPT`. -/
def DEFAULT_GENERATE_INPUTS_PROMPT : String :=
  "You are auditing an AI model. Your task is to generate typical but varied inputs for this model.\n\nYour will generate inputs for the following model: \x7bmodel_name\x7d - \x7bmodel_description\x7d.\nModel Features: \x7bfeature_names\x7d\n\nEach generated input must be an object with values for each of the model features, aimed at simulating typical usage of the model, or typical inputs that the model is supposed to handle.\nTake the model description into account when generating the inputs. You should not generate repeated inputs or variations of the same input, instead try to generate inputs that varied for use cases of the model and cover all situations that could be encoutered during typical usage of the model.\n\nThink step by step and then call the `generate_inputs` function with the generated inputs. You must generate \x7bnum_samples\x7d inputs.\n"

/-- The module constant `LANGUAGE_REQUIREMENT_PROMPT`.  It is defined in the
source but referenced by no other code in the module. -/
def LANGUAGE_REQUIREMENT_PROMPT : String :=
  "You must generate input using different languages among the following list: \x7blanguages\x7d."

/-- Python truthiness fallback `x or default` for an optional sequence: `None`
and the empty sequence both resolve to the default. -/
def pyOrSeq {α : Type} (x : Option (List α)) (default : List α) : List α :=
  match x with
  | none => default
  | some l => if l.isEmpty then default else l

/-- The class attribute `_BaseLLMGenerator._default_temperature = 0.5`. -/
def default_temperature : Rat := 0.5

/-- The default of the `llm_seed` parameter of `_BaseLLMGenerator.__init__`. -/
def default_llm_seed : Int := 1729

/-- The construction-time configuration stored by
`_BaseLLMGenerator.__init__` (the LLM client capability itself is kept out of
the state and passed as a pure stub where a call is made). -/
structure BaseLLMGeneratorState where
  languages : List String
  llm_temperature : Rat
  llm_seed : Int
deriving DecidableEq

/-- `_BaseLLMGenerator.__init__`: `languages or ["en"]`,
`llm_temperature if llm_temperature is not None else 0.5`, and the seed
defaulting to the fixed constant when not supplied. -/
def BaseLLMGenerator_init (languages : Option (List String))
    (llm_temperature : Option Rat) (llm_seed : Option Int) : BaseLLMGeneratorState :=
  { languages := pyOrSeq languages ["en"]
    llm_temperature := llm_temperature.getD default_temperature
    llm_seed := llm_seed.getD default_llm_seed }

/-- The state of a constructed `LLMBasedDataGenerator`: the inherited LLM call
configuration plus the prompt template and optional prefix messages. -/
structure LLMBasedDataGeneratorState where
  prompt : String
  prefix_messages : List ChatMessage
  languages : List String
  llm_temperature : Rat
  llm_seed : Int
deriving DecidableEq

/-- `LLMBasedDataGenerator.__init__`: delegates the call configuration to
`_BaseLLMGenerator.__init__`, then stores the prompt,
`prefix_messages or []`, and `languages or ["en"]` (re-assigned identically to
the base resolution). -/
def LLMBasedDataGenerator_init (prompt : String)
    (prefix_messages : Option (List ChatMessage)) (languages : Option (List String))
    (llm_temperature : Option Rat) (llm_seed : Option Int) : LLMBasedDataGeneratorState :=
  let base := BaseLLMGenerator_init languages llm_temperature llm_seed
  { prompt := prompt
    prefix_messages := pyOrSeq prefix_messages []
    languages := pyOrSeq languages ["en"]
    llm_temperature := base.llm_temperature
    llm_seed := base.llm_seed }

/-- The keyword arguments `_format_messages` passes to `str.format`:
`model=model, num_samples=num_samples, languages=", ".join(self.languages)`. -/
def formatArgs (g : LLMBasedDataGeneratorState) (model : BaseModelMeta)
    (num_samples : Int) : List (String × FmtVal) :=
  [("model", .model model), ("num_samples", .int num_samples),
    ("languages", .str (String.intercalate ", " g.languages))]

/-- `LLMBasedDataGenerator._format_messages`:
`self.prompt.format(model=model, num_samples=num_samples, languages=", ".join(self.languages))`,
then the prefix messages followed by one user message with the rendered
prompt.  A formatting exception propagates as the `.error` case. -/
def _format_messages (g : LLMBasedDataGeneratorState) (model : BaseModelMeta)
    (num_samples : Int) : Except PyExc (List ChatMessage) :=
  match pyFormat g.prompt (formatArgs g model num_samples) with
  | .ok prompt => .ok (g.prefix_messages ++ [⟨"user", prompt⟩])
  | .error e => .error e

/-- The argument record of one `llm_client.complete(...)` call. -/
structure CompletionCall where
  messages : List ChatMessage
  temperature : Rat
  caller_id : String
  seed : Int
  format : String
deriving DecidableEq

/-- The arguments handed to the `Dataset` collaborator's constructor; the
`df` field carries the parsed records (`pd.DataFrame(generated)`) unchanged. -/
structure DatasetArgs where
  df : Json
  name : String
  validation : Bool
  column_types : Option (List (String × String))

/-- `_BaseLLMGenerator._make_dataset_name`. -/
def _make_dataset_name (model : BaseModelMeta) : String :=
  "Synthetic Test Dataset for " ++ model.name

/-- The argument record of the one completion call `generate_dataset`
issues: the formatted messages, the construction-time temperature and seed,
the fixed `format="json"`, and `caller_id=self.__class__.__name__`. -/
def mkCall (g : LLMBasedDataGeneratorState) (msgs : List ChatMessage) : CompletionCall :=
  { messages := msgs
    temperature := g.llm_temperature
    caller_id := "LLMBasedDataGenerator"
    seed := g.llm_seed
    format := "json" }

/-- `_BaseLLMGenerator.generate_dataset`, specialised to the one concrete
subclass `LLMBasedDataGenerator` (whose type name supplies
`caller_id=self.__class__.__name__`): format the messages, issue one
`complete` call with the construction-time temperature, seed and the fixed
`format="json"`, parse the output, and build the dataset with the derived
name, the given column types and `validation=False`.  The second component
lists the completion calls issued, in order, so call-count properties are
statable; an exception anywhere aborts the pipeline. -/
def generate_dataset (g : LLMBasedDataGeneratorState)
    (complete : CompletionCall → ChatMessage) (model : BaseModelMeta)
    (num_samples : Int) (column_types : Option (List (String × String))) :
    Except PyExc DatasetArgs × List CompletionCall :=
  match _format_messages g model num_samples with
  | .error e => (.error e, [])
  | .ok messages =>
    let call : CompletionCall := mkCall g messages
    let out := complete call
    match _parse_output default_output_key out with
    | .error e => (.error e, [call])
    | .ok generated =>
      (.ok { df := generated
             name := _make_dataset_name model
             validation := false
             column_types := column_types }, [call])

/-- Bool test: does `hay` start with `needle`? -/
def listStartsWith : List Char → List Char → Bool
  | _, [] => true
  | [], _ :: _ => false
  | a :: as, b :: bs => (a = b) && listStartsWith as bs

/-- Bool test: does `hay` contain `needle` as a contiguous run? -/
def listContainsSub : List Char → List Char → Bool
  | [], needle => listStartsWith [] needle
  | a :: t, needle => listStartsWith (a :: t) needle || listContainsSub t needle

/-- Substring containment on strings. -/
def strContains (hay needle : String) : Bool :=
  listContainsSub hay.data needle.data

/-- The "Loan Approval" model metadata of the spec's end-to-end scenario,
used as the concrete fixture of the witnesses. -/
def mLoan : BaseModelMeta :=
  { name := "Loan Approval"
    description := "Predicts loan approval decisions"
    feature_names := ["income", "age"] }

/-- A concrete generator with a well-formed template and all-default
configuration. -/
def gEx : LLMBasedDataGeneratorState :=
  LLMBasedDataGenerator_init
    "Generate \x7bnum_samples\x7d inputs for \x7bmodel.name\x7d in \x7blanguages\x7d."
    none none none none

/-- A concrete generator configured with two languages and a template free of
replacement fields. -/
def gMulti : LLMBasedDataGeneratorState :=
  LLMBasedDataGenerator_init "Generate data." none (some ["en", "fr"]) none none

/-- A concrete generator whose template references the placeholder
`model_name`, which `_format_messages` never supplies. -/
def gBadTemplate : LLMBasedDataGeneratorState :=
  LLMBasedDataGenerator_init "Generate inputs for \x7bmodel_name\x7d." none none none none

example : _format_messages gEx mLoan 3 =
    .ok [⟨"user", "Generate 3 inputs for Loan Approval in en."⟩] := by rfl
example : _format_messages gBadTemplate mLoan 3 = .error (.KeyError "model_name") := by rfl

/-- Helper: on content that fails to decode, or decodes to a JSON object
without the `"inputs"` key, `_parse_output` wraps the underlying error. -/
theorem parse_output_wraps (out : ChatMessage)
    (hbad : json_loads out.content = none ∨
      ∃ kvs, json_loads out.content = some (.obj kvs) ∧ lookupLast kvs "inputs" = none) :
    ∃ cause, _parse_output "inputs" out =
        .error (.LLMGenerationError "Could not parse generated data" cause) ∧
      (cause = .JSONDecodeError ∨ cause = .KeyError "inputs") := by
  rcases hbad with h | ⟨kvs, h, hlk⟩
  · exact ⟨.JSONDecodeError, by simp [_parse_output, h], Or.inl rfl⟩
  · exact ⟨.KeyError "inputs", by simp [_parse_output, h, subscript, hlk], Or.inr rfl⟩

/-- Helper: the completion calls issued by one `generate_dataset` invocation:
none when message formatting raises, otherwise exactly one, carrying the
construction-time temperature and seed, the fixed `"json"` format, and the
class name as caller id. -/
theorem generate_dataset_calls (g : LLMBasedDataGeneratorState)
    (complete : CompletionCall → ChatMessage) (model : BaseModelMeta)
    (num_samples : Int) (ct : Option (List (String × String))) :
    ((generate_dataset g complete model num_samples ct).2 = [] ∧
      ∃ e, _format_messages g model num_samples = .error e) ∨
    (∃ msgs, _format_messages g model num_samples = .ok msgs ∧
      (generate_dataset g complete model num_samples ct).2 = [mkCall g msgs]) := by
  cases hf : _format_messages g model num_samples with
  | error e => exact Or.inl ⟨by simp [generate_dataset, hf], e, rfl⟩
  | ok msgs =>
    refine Or.inr ⟨msgs, rfl, ?_⟩
    simp only [generate_dataset, hf]
    split <;> rfl

/-- Helper: when rendering succeeds, every field segment resolved to a
value. -/
theorem renderSegs_ok_fields (args : List (String × FmtVal)) :
    ∀ segs out, renderSegs args segs = .ok out →
      ∀ f, Seg.field f ∈ segs → ∃ v, resolveField args f = .ok v := by
  intro segs
  induction segs with
  | nil =>
    intro out _ f hf
    cases hf
  | cons s rest ih =>
    intro out h f hf
    cases s with
    | lit t =>
      cases hr : renderSegs args rest with
      | error e => simp [renderSegs, hr] at h
      | ok o =>
        cases hf with
        | tail _ hmem => exact ih o hr f hmem
    | field f0 =>
      cases hres : resolveField args f0 with
      | error e => simp [renderSegs, hres] at h
      | ok v =>
        cases hf with
        | head => exact ⟨v, hres⟩
        | tail _ hmem =>
          cases hr : renderSegs args rest with
          | error e => simp [renderSegs, hres, hr] at h
          | ok o => exact ih o hr f hmem

/-- Is this segment literal text? -/
def Seg.isLit : Seg → Bool
  | .lit _ => true
  | .field _ => false

/-- The literal text of a segment list (field segments contribute nothing). -/
def segsText : List Seg → String
  | [] => ""
  | .lit s :: rest => s ++ segsText rest
  | .field _ :: rest => segsText rest

/-- Helper: a list of literal-only segments renders to its own text,
independently of the format arguments. -/
theorem renderSegs_allLit (args : List (String × FmtVal)) :
    ∀ segs, (∀ s ∈ segs, s.isLit = true) →
      renderSegs args segs = .ok (segsText segs) := by
  intro segs
  induction segs with
  | nil => intro _; rfl
  | cons s rest ih =>
    intro hall
    cases s with
    | lit t =>
      have hr := ih (fun x hx => hall x (List.mem_cons_of_mem _ hx))
      simp only [renderSegs, hr, segsText]
    | field f =>
      have := hall (.field f) (List.mem_cons_self _ _)
      simp [Seg.isLit] at this

/-- C1 counterexample: the content `[]` is well-formed JSON that lacks the
top-level key `"inputs"`, yet `generate_dataset` surfaces the underlying
`TypeError` from `data["inputs"]` instead of the claimed
`LLMGenerationError("Could not parse generated data")`: only
`json.JSONDecodeError` and `KeyError` are caught, and subscripting a list by
a string raises `TypeError`. -/
theorem c1_counterexample :
    json_loads "[]" = some (.arr []) ∧
    (generate_dataset gEx (fun _ => ⟨"assistant", "[]"⟩) mLoan 3 none).1 =
      .error (.TypeError "list indices must be integers or slices") := by
  exact ⟨by rfl, by rfl⟩

/-- C1 (amended): for content that does not decode as JSON, or decodes to a
JSON object lacking the `"inputs"` key, `generate_dataset` fails with the
single failure kind `LLMGenerationError`, message
`"Could not parse generated data"`, the underlying `JSONDecodeError` or
`KeyError` attached as cause and not propagated to the caller.  (Well-formed
JSON whose top level is not an object escapes this wrapping, as the
counterexample shows.) -/
theorem c1_parse_failures_wrapped (g : LLMBasedDataGeneratorState)
    (out : ChatMessage) (model : BaseModelMeta) (num_samples : Int)
    (ct : Option (List (String × String))) (msgs : List ChatMessage)
    (hfmt : _format_messages g model num_samples = .ok msgs)
    (hbad : json_loads out.content = none ∨
      ∃ kvs, json_loads out.content = some (.obj kvs) ∧ lookupLast kvs "inputs" = none) :
    ∃ cause, (generate_dataset g (fun _ => out) model num_samples ct).1 =
        .error (.LLMGenerationError "Could not parse generated data" cause) ∧
      (cause = .JSONDecodeError ∨ cause = .KeyError "inputs") := by
  obtain ⟨cause, hw, hc⟩ := parse_output_wraps out hbad
  refine ⟨cause, ?_, hc⟩
  simp only [generate_dataset, hfmt]
  have hw' : _parse_output default_output_key out =
      .error (.LLMGenerationError "Could not parse generated data" cause) := hw
  rw [hw']

/-- C1 witness: a generator with a well-formed template, fed the non-JSON
completion `not json`, fails with the wrapped error. -/
theorem c1_witness :
    ∃ cause, (generate_dataset gEx (fun _ => ⟨"assistant", "not json"⟩) mLoan 3 none).1 =
        .error (.LLMGenerationError "Could not parse generated data" cause) ∧
      (cause = .JSONDecodeError ∨ cause = .KeyError "inputs") :=
  c1_parse_failures_wrapped gEx ⟨"assistant", "not json"⟩ mLoan 3 none
    [⟨"user", "Generate 3 inputs for Loan Approval in en."⟩] (by rfl) (Or.inl (by rfl))

/-- C2: content decoding to the object `\x7b"inputs": [...]\x7d` parses to
exactly that array — same records, same order, nothing added, dropped or
altered. -/
theorem c2_roundtrip (role s : String) (records : List Json)
    (h : json_loads s = some (.obj [("inputs", .arr records)])) :
    _parse_output "inputs" ⟨role, s⟩ = .ok (.arr records) := by
  simp [_parse_output, h, subscript, lookupLast]

/-- C2 witness: the two-record response of the spec's end-to-end scenario
round-trips unchanged. -/
theorem c2_witness :
    _parse_output "inputs"
        ⟨"assistant", "\x7b\"inputs\": [\x7b\"income\": 50000, \"age\": 30\x7d, \x7b\"income\": 72000, \"age\": 45\x7d]\x7d"⟩ =
      .ok (.arr [.obj [("income", .num 50000), ("age", .num 30)],
        .obj [("income", .num 72000), ("age", .num 45)]]) :=
  c2_roundtrip "assistant"
    "\x7b\"inputs\": [\x7b\"income\": 50000, \"age\": 30\x7d, \x7b\"income\": 72000, \"age\": 45\x7d]\x7d"
    [.obj [("income", .num 50000), ("age", .num 30)],
      .obj [("income", .num 72000), ("age", .num 45)]] (by rfl)

/-- C10: whenever the content decodes to a JSON object carrying the
`"inputs"` key, `_parse_output` returns the value under that key unchanged,
whatever its type — no validation that it is a sequence of record
mappings. -/
theorem c10_no_value_validation (role s : String) (kvs : List (String × Json)) (v : Json)
    (hp : json_loads s = some (.obj kvs)) (hk : lookupLast kvs "inputs" = some v) :
    _parse_output "inputs" ⟨role, s⟩ = .ok v := by
  simp [_parse_output, hp, subscript, hk]

/-- C10 witness: the scalar payload `\x7b"inputs": 42\x7d` is returned as the
bare number 42 with no error from the parser. -/
theorem c10_witness :
    _parse_output "inputs" ⟨"assistant", "\x7b\"inputs\": 42\x7d"⟩ = .ok (.num 42) :=
  c10_no_value_validation "assistant" "\x7b\"inputs\": 42\x7d"
    [("inputs", .num 42)] (.num 42) (by rfl) (by rfl)

/-- C3: whenever `generate_dataset` produces a dataset, its name is exactly
`"Synthetic Test Dataset for " ++ model.name` (for every model name,
including empty and unicode ones), its rows are exactly the parsed records
in their given order, the provided column types pass through unchanged, and
the validation flag handed to the `Dataset` constructor is false. -/
theorem c3_dataset_assembly (g : LLMBasedDataGeneratorState)
    (complete : CompletionCall → ChatMessage) (model : BaseModelMeta)
    (num_samples : Int) (ct : Option (List (String × String))) (d : DatasetArgs)
    (h : (generate_dataset g complete model num_samples ct).1 = .ok d) :
    d.name = "Synthetic Test Dataset for " ++ model.name ∧
    d.validation = false ∧
    d.column_types = ct ∧
    ∃ msgs, _format_messages g model num_samples = .ok msgs ∧
      _parse_output default_output_key (complete (mkCall g msgs)) = .ok d.df := by
  cases hf : _format_messages g model num_samples with
  | error e => simp [generate_dataset, hf] at h
  | ok msgs =>
    simp only [generate_dataset, hf] at h
    cases hp : _parse_output default_output_key (complete (mkCall g msgs)) with
    | error e => rw [hp] at h; simp at h
    | ok generated =>
      rw [hp] at h
      simp only [Except.ok.injEq] at h
      subst h
      exact ⟨rfl, rfl, rfl, msgs, rfl, hp⟩

/-- The dataset the end-to-end scenario produces. -/
def dLoan : DatasetArgs :=
  { df := .arr [.obj [("income", .num 50000), ("age", .num 30)]]
    name := "Synthetic Test Dataset for Loan Approval"
    validation := false
    column_types := some [("income", "numeric")] }

/-- The stubbed completion of the end-to-end scenario. -/
def outLoan : ChatMessage :=
  ⟨"assistant", "\x7b\"inputs\": [\x7b\"income\": 50000, \"age\": 30\x7d]\x7d"⟩

/-- C3 witness: the end-to-end scenario — one record for the Loan Approval
model yields a dataset named for the model, the record as its rows,
`column_types` passed through, and validation off. -/
theorem c3_witness :
    dLoan.name = "Synthetic Test Dataset for " ++ mLoan.name ∧
    dLoan.validation = false ∧
    dLoan.column_types = some [("income", "numeric")] ∧
    ∃ msgs, _format_messages gEx mLoan 1 = .ok msgs ∧
      _parse_output default_output_key
        ((fun _ => outLoan) (mkCall gEx msgs)) = .ok dLoan.df :=
  c3_dataset_assembly gEx (fun _ => outLoan) mLoan 1
    (some [("income", "numeric")]) dLoan (by rfl)

/-- C4 counterexample: the generator `gMulti` is configured with the
two-element language set `["en", "fr"]`, yet its rendered instruction is the
bare template `"Generate data."`, which does not contain the multi-language
clause — `_format_messages` never appends `LANGUAGE_REQUIREMENT_PROMPT`
(whose text starts with the probed substring), for any language set. -/
theorem c4_counterexample :
    1 < gMulti.languages.length ∧
    _format_messages gMulti mLoan 5 = .ok [⟨"user", "Generate data."⟩] ∧
    strContains "Generate data." "You must generate input using different languages" = false ∧
    strContains LANGUAGE_REQUIREMENT_PROMPT
      "You must generate input using different languages" = true := by
  exact ⟨by decide, by rfl, by rfl, by rfl⟩

/-- C4 (amended): `_format_messages` only substitutes the template; it never
appends the multi-language clause.  In particular, a template that tokenizes
to literal-only segments renders to its own text, whatever the configured
language set (one element or many) — the conclusion does not depend on
`g.languages` at all. -/
theorem c4_no_clause_appended (g : LLMBasedDataGeneratorState) (model : BaseModelMeta)
    (num_samples : Int) (segs : List Seg)
    (htok : tokenizeFmt (g.prompt.length + 1) g.prompt.data = .ok segs)
    (hall : ∀ s ∈ segs, s.isLit = true) :
    _format_messages g model num_samples =
      .ok (g.prefix_messages ++ [⟨"user", segsText segs⟩]) := by
  have hr := renderSegs_allLit (formatArgs g model num_samples) segs hall
  simp only [_format_messages, pyFormat, htok, hr]

/-- C4 amended witness: the two-language generator's rendered instruction is
exactly its template, no clause added. -/
theorem c4_witness :
    _format_messages gMulti mLoan 5 = .ok [⟨"user", "Generate data."⟩] := by
  have h := c4_no_clause_appended gMulti mLoan 5
    ("Generate data.".data.map fun c => Seg.lit c.toString) (by rfl) (by decide)
  exact h

/-- C5: the built message sequence is the prefix messages, in their given
order, followed by exactly one user-role message carrying the rendered
instruction, and nothing else. -/
theorem c5_message_sequence (g : LLMBasedDataGeneratorState) (model : BaseModelMeta)
    (num_samples : Int) (rendered : String)
    (h : pyFormat g.prompt (formatArgs g model num_samples) = .ok rendered) :
    _format_messages g model num_samples =
      .ok (g.prefix_messages ++ [⟨"user", rendered⟩]) := by
  simp only [_format_messages, h]

/-- A concrete generator carrying a system-framing prefix message. -/
def gPrefix : LLMBasedDataGeneratorState :=
  LLMBasedDataGenerator_init "Task: \x7bnum_samples\x7d samples."
    (some [⟨"system", "You are a data generator."⟩]) none none none

/-- C5 witness: with one system prefix message, the build yields that message
first and the rendered user message last. -/
theorem c5_witness :
    _format_messages gPrefix mLoan 2 =
      .ok (gPrefix.prefix_messages ++ [⟨"user", "Task: 2 samples."⟩]) :=
  c5_message_sequence gPrefix mLoan 2 "Task: 2 samples." (by rfl)

/-- C8: (i) a message-formatting error (e.g. a placeholder with no supplied
value) is surfaced as the outcome of `generate_dataset` with no completion
call issued — fail fast at request-build time; (ii) when rendering succeeds,
the instruction is the template's segments with every replacement field
substituted by its resolved value — no placeholder is left unsubstituted;
(iii) a field whose resolution fails (a missing placeholder value) forces
`_format_messages` to fail. -/
theorem c8_template_errors_fail_fast :
    (∀ (g : LLMBasedDataGeneratorState) (complete : CompletionCall → ChatMessage)
        (model : BaseModelMeta) (num_samples : Int)
        (ct : Option (List (String × String))) (e : PyExc),
      _format_messages g model num_samples = .error e →
        generate_dataset g complete model num_samples ct = (.error e, [])) ∧
    (∀ (g : LLMBasedDataGeneratorState) (model : BaseModelMeta) (num_samples : Int)
        (msgs : List ChatMessage),
      _format_messages g model num_samples = .ok msgs →
      ∃ segs rendered,
        tokenizeFmt (g.prompt.length + 1) g.prompt.data = .ok segs ∧
        renderSegs (formatArgs g model num_samples) segs = .ok rendered ∧
        msgs = g.prefix_messages ++ [⟨"user", rendered⟩] ∧
        ∀ f, Seg.field f ∈ segs →
          ∃ v, resolveField (formatArgs g model num_samples) f = .ok v) ∧
    (∀ (g : LLMBasedDataGeneratorState) (model : BaseModelMeta) (num_samples : Int)
        (segs : List Seg) (f : String) (e0 : PyExc),
      tokenizeFmt (g.prompt.length + 1) g.prompt.data = .ok segs →
      Seg.field f ∈ segs →
      resolveField (formatArgs g model num_samples) f = .error e0 →
      ∃ e, _format_messages g model num_samples = .error e) := by
  refine ⟨?_, ?_, ?_⟩
  · intro g complete model num_samples ct e h
    simp [generate_dataset, h]
  · intro g model num_samples msgs h
    simp only [_format_messages] at h
    cases hpf : pyFormat g.prompt (formatArgs g model num_samples) with
    | error e => rw [hpf] at h; simp at h
    | ok rendered =>
      rw [hpf] at h
      simp only [Except.ok.injEq] at h
      simp only [pyFormat] at hpf
      cases htok : tokenizeFmt (g.prompt.length + 1) g.prompt.data with
      | error e => rw [htok] at hpf; simp at hpf
      | ok segs =>
        rw [htok] at hpf
        exact ⟨segs, rendered, rfl, hpf, h.symm,
          renderSegs_ok_fields (formatArgs g model num_samples) segs rendered hpf⟩
  · intro g model num_samples segs f e0 htok hmem hres
    cases hfm : _format_messages g model num_samples with
    | error e => exact ⟨e, rfl⟩
    | ok msgs =>
      exfalso
      simp only [_format_messages] at hfm
      cases hpf : pyFormat g.prompt (formatArgs g model num_samples) with
      | error e => rw [hpf] at hfm; simp at hfm
      | ok rendered =>
        simp only [pyFormat, htok] at hpf
        obtain ⟨v, hv⟩ :=
          renderSegs_ok_fields (formatArgs g model num_samples) segs rendered hpf f hmem
        rw [hres] at hv
        cases hv

/-- C8 witness: the template referencing the unsupplied placeholder
`model_name` makes `generate_dataset` fail with the build-time `KeyError`
and issue zero completion calls. -/
theorem c8_witness :
    generate_dataset gBadTemplate (fun _ => outLoan) mLoan 3 none =
      (.error (.KeyError "model_name"), []) :=
  c8_template_errors_fail_fast.1 gBadTemplate (fun _ => outLoan) mLoan 3 none
    (.KeyError "model_name") (by rfl)

/-- C6 counterexample: the invocation on the generator whose template
references the unsupplied placeholder `model_name` issues zero completion
calls (the build-time `KeyError` aborts before the client is reached), so
not every `generate_dataset` invocation issues exactly one completion
call. -/
theorem c6_counterexample :
    (generate_dataset gBadTemplate (fun _ => outLoan) mLoan 3 none).2 = [] ∧
    (generate_dataset gBadTemplate (fun _ => outLoan) mLoan 3 none).1 =
      .error (.KeyError "model_name") := by
  exact ⟨by rfl, by rfl⟩

/-- C6 (amended): an invocation issues at most one completion call; every
invocation whose message formatting succeeds issues exactly one, and every
issued call takes its parameters from the construction-time configuration:
temperature and seed are the generator's, format is the fixed `"json"`, and
the caller id is the generator's type name. -/
theorem c6_single_configured_call (g : LLMBasedDataGeneratorState)
    (complete : CompletionCall → ChatMessage) (model : BaseModelMeta)
    (num_samples : Int) (ct : Option (List (String × String))) :
    (generate_dataset g complete model num_samples ct).2.length ≤ 1 ∧
    (∀ msgs, _format_messages g model num_samples = .ok msgs →
      (generate_dataset g complete model num_samples ct).2 = [mkCall g msgs]) ∧
    (∀ c ∈ (generate_dataset g complete model num_samples ct).2,
      c.temperature = g.llm_temperature ∧ c.seed = g.llm_seed ∧
      c.format = "json" ∧ c.caller_id = "LLMBasedDataGenerator") := by
  rcases generate_dataset_calls g complete model num_samples ct with
    ⟨hnil, e, he⟩ | ⟨msgs, hok, hcalls⟩
  · refine ⟨by rw [hnil]; simp, ?_, ?_⟩
    · intro msgs h
      rw [he] at h
      cases h
    · intro c hc
      rw [hnil] at hc
      cases hc
  · refine ⟨by rw [hcalls]; simp, ?_, ?_⟩
    · intro msgs' h
      rw [hok] at h
      injection h with h
      subst h
      exact hcalls
    · intro c hc
      rw [hcalls] at hc
      have hce := List.mem_singleton.mp hc
      subst hce
      exact ⟨rfl, rfl, rfl, rfl⟩

/-- C6 amended witness: with a well-formed template the invocation issues
exactly the one configured call. -/
theorem c6_witness :
    (generate_dataset gEx (fun _ => outLoan) mLoan 3 none).2 =
      [mkCall gEx [⟨"user", "Generate 3 inputs for Loan Approval in en."⟩]] :=
  (c6_single_configured_call gEx (fun _ => outLoan) mLoan 3 none).2.1
    [⟨"user", "Generate 3 inputs for Loan Approval in en."⟩] (by rfl)

/-- Helper: the Python truthiness fallback never yields the empty list when
its default is nonempty. -/
theorem pyOrSeq_ne_nil {α : Type} (x : Option (List α)) (d : List α) (hd : d ≠ []) :
    pyOrSeq x d ≠ [] := by
  cases x with
  | none => simpa [pyOrSeq]
  | some l =>
    cases l with
    | nil => simpa [pyOrSeq]
    | cons a t => simp [pyOrSeq]

/-- C7: the configured language set is never empty for either constructor —
`None` and the empty sequence resolve to the default `["en"]` — and an
unsupplied temperature resolves to the default 0.5, an unsupplied seed to
the fixed constant 1729.  The configuration is a plain immutable value in
this embedding: `generate_dataset` takes it read-only and nothing in the
source mutates it after `__init__`. -/
theorem c7_construction_defaults :
    (∀ (languages : Option (List String)) (t : Option Rat) (seed : Option Int),
      (BaseLLMGenerator_init languages t seed).languages ≠ []) ∧
    (∀ (p : String) (pm : Option (List ChatMessage)) (languages : Option (List String))
        (t : Option Rat) (seed : Option Int),
      (LLMBasedDataGenerator_init p pm languages t seed).languages ≠ []) ∧
    (∀ (t : Option Rat) (seed : Option Int),
      (BaseLLMGenerator_init none t seed).languages = ["en"]) ∧
    (∀ (t : Option Rat) (seed : Option Int),
      (BaseLLMGenerator_init (some []) t seed).languages = ["en"]) ∧
    (∀ (languages : Option (List String)) (seed : Option Int),
      (BaseLLMGenerator_init languages none seed).llm_temperature = 0.5) ∧
    (∀ (languages : Option (List String)) (t : Option Rat),
      (BaseLLMGenerator_init languages t none).llm_seed = 1729) ∧
    (∀ (p : String) (pm : Option (List ChatMessage)) (languages : Option (List String))
        (seed : Option Int),
      (LLMBasedDataGenerator_init p pm languages none seed).llm_temperature = 0.5) ∧
    (∀ (p : String) (pm : Option (List ChatMessage)) (languages : Option (List String))
        (t : Option Rat),
      (LLMBasedDataGenerator_init p pm languages t none).llm_seed = 1729) := by
  refine ⟨?_, ?_, fun _ _ => rfl, fun _ _ => rfl, fun _ _ => rfl, fun _ _ => rfl,
    fun _ _ _ _ => rfl, fun _ _ _ _ => rfl⟩
  · intro languages t seed
    simp only [BaseLLMGenerator_init]
    exact pyOrSeq_ne_nil _ _ (by simp)
  · intro p pm languages t seed
    simp only [LLMBasedDataGenerator_init]
    exact pyOrSeq_ne_nil _ _ (by simp)

/-- A concrete generator constructed with the explicit temperature 0.0. -/
def gZeroTemp : LLMBasedDataGeneratorState :=
  LLMBasedDataGenerator_init "Hi." none none (some 0) none

/-- C9: a generator constructed with the explicit temperature 0.0 stores 0.0
(the falsy value is honored, because `__init__` tests `is not None`, not
truthiness) and passes 0.0 to every completion call it issues; only the
unsupplied (`None`) temperature resolves to the default 0.5. -/
theorem c9_zero_temperature_honored (prompt : String)
    (pm : Option (List ChatMessage)) (langs : Option (List String)) (seed : Option Int)
    (complete : CompletionCall → ChatMessage) (model : BaseModelMeta)
    (num_samples : Int) (ct : Option (List (String × String))) :
    (LLMBasedDataGenerator_init prompt pm langs (some 0) seed).llm_temperature = 0 ∧
    (∀ c ∈ (generate_dataset (LLMBasedDataGenerator_init prompt pm langs (some 0) seed)
        complete model num_samples ct).2, c.temperature = 0) ∧
    (LLMBasedDataGenerator_init prompt pm langs none seed).llm_temperature =
      default_temperature := by
  refine ⟨rfl, ?_, rfl⟩
  intro c hc
  rcases generate_dataset_calls (LLMBasedDataGenerator_init prompt pm langs (some 0) seed)
      complete model num_samples ct with ⟨hnil, _⟩ | ⟨msgs, _, hcalls⟩
  · rw [hnil] at hc
    cases hc
  · rw [hcalls] at hc
    have hce := List.mem_singleton.mp hc
    subst hce
    rfl

/-- C9 witness: the explicitly-zero-temperature generator's one issued call
carries temperature 0. -/
theorem c9_witness :
    (mkCall gZeroTemp [⟨"user", "Hi."⟩]).temperature = 0 :=
  (c9_zero_temperature_honored "Hi." none none none (fun _ => outLoan) mLoan 3 none).2.1
    (mkCall gZeroTemp [⟨"user", "Hi."⟩]) (by exact List.mem_singleton.mpr rfl)
